import Mathlib

/-!
Verification development for the road-defect reporting backend
(report ingestion, spatial aggregation, work lifecycle).

The definitions below are a shallow embedding of the JavaScript source:
  * `src/controllers/report_controller.js` (submitReport,
    updateAggregatedLocation, createWorkAssignment, verifyLocation,
    batchVerifyLocations),
  * the admin controller (assignToContractor, batchAssign, verifyWork,
    rejectVerification),
  * `src/controllers/contractor_controller.js` (updateJobStatus),
  * the MySQL schema from the database initialization script.

Modelling conventions:
  * MySQL tables are Lean lists of row structures; an SQL `UPDATE ... WHERE`
    maps over all rows satisfying the predicate, `affectedRows` is the number
    of matching rows, auto-increment ids are `max id + 1`.
  * A client-supplied coordinate (a decimal number) is a fraction
    `Coord.num / Coord.den`, so the same value written at different precision
    ("13.08270" vs 13.0827) has different representations but the same ratio;
    `parseFloat(x).toFixed(4)` becomes rounding to an integer count of 1e-4
    units (`round4`) followed by fixed-width rendering (`fmt4`).  A missing
    coordinate is the degenerate `0/0` value (standing for JS `NaN`).
  * `NOW()` timestamps are an explicit `now : Nat` parameter.
  * A transaction runs against a working copy of the database; a raised
    error makes the handler return the original database (rollback).
    Individual SQL writes may fail with a storage error, decided by an
    oracle `Nat → Bool` indexed by the write counter; a unique-key insert
    fails deterministically with a duplicate-key error when the key exists.
  * The trace of storage interactions (begin / read / write / commit /
    rollback) is recorded for the two handlers that open an explicit
    transaction, to settle what happens before validation.
-/

/-- A client-supplied decimal coordinate, kept as an exact fraction
`num / den` (JS holds it as a number; `den = 0` stands for `NaN`). -/
structure Coord where
  num : Int
  den : Nat
deriving DecidableEq, Repr

/-- `parseFloat(x).toFixed(4)` as a value: the coordinate rounded to the
nearest integer count of 1e-4 units (halves round up):
`round4 (n/d) = ⌊n/d * 10000 + 1/2⌋ = ⌊(20000n + d) / 2d⌋`. -/
def round4 (c : Coord) : Int :=
  Int.fdiv (20000 * c.num + c.den) (2 * c.den)

/-- Left-pad a natural number with zeroes to 4 decimal digits (the fraction
part printed by `toFixed(4)`). -/
def pad4 (n : Nat) : String :=
  let s := toString n
  String.mk (List.replicate (4 - s.length) '0') ++ s

/-- Render an integer count of 1e-4 units the way `toFixed(4)` renders the
rounded coordinate: integer part, a dot, and exactly four fraction digits. -/
def fmt4 (r : Int) : String :=
  if r < 0 then
    "-" ++ toString ((-r).toNat / 10000) ++ "." ++ pad4 ((-r).toNat % 10000)
  else
    toString (r.toNat / 10000) ++ "." ++ pad4 (r.toNat % 10000)

/-- Spatial grid key from `updateAggregatedLocation`:
`gridId = parseFloat(lat).toFixed(4) + "_" + parseFloat(lng).toFixed(4)`. -/
def gridKey (lat lng : Coord) : String :=
  fmt4 (round4 lat) ++ "_" ++ fmt4 (round4 lng)

/-- Detection / cell severity, MySQL `ENUM('Low','Medium','High')`. -/
inductive Severity where
  | Low
  | Medium
  | High
deriving DecidableEq, Repr

/-- `severityOrder = { "Low": 1, "Medium": 2, "High": 3 }` from
`updateAggregatedLocation`. -/
def Severity.rank : Severity → Nat
  | .Low => 1
  | .Medium => 2
  | .High => 3

/-- The severity-merge decision of `updateAggregatedLocation`:
`newHighest = severityOrder[severity] > severityOrder[current.highest_severity]
? severity : current.highest_severity` (first argument is the current cell
value, second the incoming detection's severity). -/
def mergeSeverity (current incoming : Severity) : Severity :=
  if current.rank < incoming.rank then incoming else current

/-- Health score from `submitReport`:
`penalty = potholes.length * 15 + patchyRoads.length * 5;
healthScore = Math.max(0, 100 - penalty)`. -/
def healthScore (numPotholes numPatchy : Nat) : Int :=
  max 0 (100 - ((numPotholes * 15 : Int) + (numPatchy * 5 : Int)))

/-- Status of an aggregated location, MySQL
`ENUM('pending','assigned','in_progress','pending_verification','verified','fixed')`. -/
inductive LocStatus where
  | pending
  | assigned
  | inProgress
  | pendingVerification
  | verified
  | fixed
deriving DecidableEq, Repr

/-- Status of a work assignment, MySQL
`ENUM('assigned','in_progress','pending_verification','completed','verified')`. -/
inductive WaStatus where
  | assigned
  | inProgress
  | pendingVerification
  | completed
  | verified
deriving DecidableEq, Repr

/-- A row of `users` (only the columns the embedded handlers touch). -/
structure UserRow where
  id : Nat
  device_id : Option String
deriving DecidableEq, Repr

/-- A row of `reports`. -/
structure ReportRow where
  id : Nat
  report_id : String
  user_id : Option Nat
  device_id : String
  total_potholes : Nat
  total_patchy_roads : Nat
  health_score : Int
  status : String
deriving DecidableEq, Repr

/-- A row of `pothole_detections`. -/
structure PotholeRow where
  id : Nat
  report_id : Nat
  location_id : Option String
  latitude : Coord
  longitude : Coord
  severity : Severity
deriving DecidableEq, Repr

/-- A row of `road_anomalies`. -/
structure AnomalyRow where
  id : Nat
  report_id : Nat
  location_id : Option String
  start_latitude : Coord
  start_longitude : Coord
  end_latitude : Option Coord
  end_longitude : Option Coord
  severity : Severity
deriving DecidableEq, Repr

/-- A row of `aggregated_locations`.  `latitude`/`longitude` hold the rounded
coordinate in 1e-4 units (DECIMAL(10,4) stores exactly what `toFixed(4)`
produced). -/
structure AggRow where
  id : Nat
  grid_id : String
  latitude : Int
  longitude : Int
  total_potholes : Nat
  total_patchy : Nat
  highest_severity : Severity
  report_count : Nat
  first_reported_at : Option Nat
  last_reported_at : Option Nat
  status : LocStatus
  verified_at : Option Nat
deriving DecidableEq, Repr

/-- A row of `contractors` (columns the handlers touch). -/
structure ContractorRow where
  id : Nat
  user_id : Option Nat
  is_active : Bool
deriving DecidableEq, Repr

/-- A row of `work_assignments`. -/
structure WaRow where
  id : Nat
  aggregated_location_id : Nat
  contractor_id : Nat
  assigned_by : Option Nat
  due_date : Option String
  status : WaStatus
  completed_at : Option Nat
  admin_notes : Option String
  notes : Option String
deriving DecidableEq, Repr

/-- The persistent store. -/
structure DB where
  users : List UserRow
  reports : List ReportRow
  potholes : List PotholeRow
  anomalies : List AnomalyRow
  aggs : List AggRow
  contractors : List ContractorRow
  assignments : List WaRow
deriving DecidableEq, Repr

/-- Next auto-increment id for a table, from the ids in use. -/
def nextId (ids : List Nat) : Nat :=
  ids.foldr Nat.max 0 + 1

example : healthScore 3 2 = 45 := by decide
example : healthScore 7 1 = 0 := by decide
example : mergeSeverity .Medium .High = .High := by decide
example : mergeSeverity .High .Low = .High := by decide
example : gridKey ⟨130827, 10000⟩ ⟨802707, 10000⟩ = "13.0827_80.2707" := by decide
example : gridKey ⟨1308270, 100000⟩ ⟨8027070, 100000⟩ = "13.0827_80.2707" := by decide

/-- Errors a MySQL statement can raise inside the submit transaction:
`ER_DUP_ENTRY` on the unique `report_id`, or any other storage failure. -/
inductive JsErr where
  | dup
  | storage
deriving DecidableEq, Repr

/-- Storage-interaction events (for the handlers that open an explicit
transaction). -/
inductive Ev where
  | begin
  | read
  | write
  | commit
  | rollback
deriving DecidableEq, Repr

/-- State of an open transaction: working copy of the database, write
counter (index into the failure oracle), event trace, first raised error. -/
structure TxSt where
  db : DB
  k : Nat
  ev : List Ev
  err : Option JsErr

/-- A `SELECT` inside the transaction (reads never fail in this model). -/
def txRead (st : TxSt) : TxSt :=
  if st.err.isSome then st else { st with ev := st.ev ++ [.read] }

/-- A write (`INSERT`/`UPDATE`) inside the transaction; the oracle decides
whether this write raises a storage error. -/
def txWrite (oracle : Nat → Bool) (f : DB → DB) (st : TxSt) : TxSt :=
  if st.err.isSome then st
  else if oracle st.k then
    { st with db := f st.db, k := st.k + 1, ev := st.ev ++ [.write] }
  else { st with k := st.k + 1, err := some .storage }

/-- An `INSERT` into a table with a unique key: raises `ER_DUP_ENTRY` when
the key is already present, otherwise behaves like `txWrite`. -/
def txUniqueInsert (oracle : Nat → Bool) (dup : DB → Bool) (f : DB → DB)
    (st : TxSt) : TxSt :=
  if st.err.isSome then st
  else if dup st.db then { st with err := some .dup }
  else txWrite oracle f st

/-- One SQL statement of the submit transaction body. -/
inductive Act where
  | rd
  | wr (f : DB → DB)
  | uins (dup : DB → Bool) (f : DB → DB)

/-- Run one statement. -/
def runAct (oracle : Nat → Bool) (st : TxSt) : Act → TxSt
  | .rd => txRead st
  | .wr f => txWrite oracle f st
  | .uins dup f => txUniqueInsert oracle dup f st

/-- Run the statements of a transaction body in order. -/
def runActs (oracle : Nat → Bool) (acts : List Act) (st : TxSt) : TxSt :=
  acts.foldl (runAct oracle) st

/-- One entry of the `anomalies` array of a submission payload. -/
structure AnomalyEntry where
  type : String
  location_id : Option String
  latitude : Option Coord
  longitude : Option Coord
  start_latitude : Option Coord
  start_longitude : Option Coord
  end_latitude : Option Coord
  end_longitude : Option Coord
  severity : Option Severity
deriving DecidableEq, Repr

/-- The submit request body (absent JSON fields are `none`). -/
structure SubmitPayload where
  report_id : Option String
  device_id : Option String
  anomalies : Option (List AnomalyEntry)
deriving DecidableEq, Repr

/-- JS `x || y` on coordinate fields (`undefined`, `NaN` and `0` are falsy). -/
def jsOrCoord (x y : Option Coord) : Option Coord :=
  match x with
  | some v => if v.num = 0 then y else some v
  | none => y

/-- The coordinate value a JS expression evaluates to; a missing field gives
`NaN`, modelled as the degenerate `0/0`. -/
def coordOf (x : Option Coord) : Coord :=
  x.getD ⟨0, 0⟩

/-- The fresh row inserted by `updateAggregatedLocation` when no cell with
this grid key exists.  The INSERT lists only grid key, coordinates, counts,
severity and timestamps; `report_count`, `status` and `verified_at` take
their schema defaults (1, 'pending', NULL). -/
def aggInsertRow (now : Nat) (aggs : List AggRow) (key : String)
    (lat lng : Coord) (s : Severity) (isPothole : Bool) : AggRow :=
  { id := nextId (aggs.map (·.id)),
    grid_id := key,
    latitude := round4 lat,
    longitude := round4 lng,
    total_potholes := if isPothole then 1 else 0,
    total_patchy := if isPothole then 0 else 1,
    highest_severity := s,
    report_count := 1,
    first_reported_at := some now,
    last_reported_at := some now,
    status := .pending,
    verified_at := none }

/-- The per-row effect of the UPDATE of `updateAggregatedLocation`:
`newHighest` is computed once from the first row the SELECT returned, and
the UPDATE applies it to every row matching the grid key. -/
def aggMergeRow (now : Nat) (key : String) (newHighest : Severity)
    (isPothole : Bool) (c : AggRow) : AggRow :=
  if c.grid_id = key then
    { c with
      total_potholes := c.total_potholes + (if isPothole then 1 else 0),
      total_patchy := c.total_patchy + (if isPothole then 0 else 1),
      highest_severity := newHighest,
      report_count := c.report_count + 1,
      last_reported_at := some now }
  else c

/-- The table mutation of `updateAggregatedLocation`: look up the cell by
grid key; if present, increment the matching count, merge the severity
(computed from the first row returned by the SELECT) and bump
`report_count`/`last_reported_at`; otherwise insert a fresh row. -/
def updateAggs (now : Nat) (aggs : List AggRow) (lat lng : Coord)
    (sev : Option Severity) (isPothole : Bool) : List AggRow :=
  match aggs.find? (fun c => c.grid_id == gridKey lat lng) with
  | some cur =>
      aggs.map
        (aggMergeRow now (gridKey lat lng)
          (mergeSeverity cur.highest_severity (sev.getD .Medium)) isPothole)
  | none =>
      aggs ++ [aggInsertRow now aggs (gridKey lat lng) lat lng
        (sev.getD .Medium) isPothole]

/-- The two statements `submitReport` runs for one pothole entry: insert the
detection row, then `updateAggregatedLocation` (one SELECT + one write). -/
def potholeActs (now dbId : Nat) (a : AnomalyEntry) : List Act :=
  [Act.wr (fun d =>
      { d with potholes := d.potholes ++ [{
          id := nextId (d.potholes.map (·.id)),
          report_id := dbId,
          location_id := a.location_id,
          latitude := coordOf a.latitude,
          longitude := coordOf a.longitude,
          severity := a.severity.getD .Medium }] }),
   Act.rd,
   Act.wr (fun d =>
      { d with aggs := (updateAggs now d.aggs (coordOf a.latitude)
          (coordOf a.longitude) a.severity true) })]

/-- The two statements `submitReport` runs for one road-anomaly entry; the
aggregation call uses the start point (`start_latitude || latitude`). -/
def anomalyActs (now dbId : Nat) (a : AnomalyEntry) : List Act :=
  [Act.wr (fun d =>
      { d with anomalies := d.anomalies ++ [{
          id := nextId (d.anomalies.map (·.id)),
          report_id := dbId,
          location_id := a.location_id,
          start_latitude := coordOf (jsOrCoord a.start_latitude a.latitude),
          start_longitude := coordOf (jsOrCoord a.start_longitude a.longitude),
          end_latitude := a.end_latitude,
          end_longitude := a.end_longitude,
          severity := a.severity.getD .Medium }] }),
   Act.rd,
   Act.wr (fun d =>
      { d with aggs := (updateAggs now d.aggs
          (coordOf (jsOrCoord a.start_latitude a.latitude))
          (coordOf (jsOrCoord a.start_longitude a.longitude))
          a.severity false) })]

/-- Resolution of the owning user: the authenticated principal if present,
otherwise the user previously registered under the device id. -/
def submitUserId (authUser : Option Nat) (db : DB) (did : String) :
    Option Nat :=
  match authUser with
  | some uid => some uid
  | none => (db.users.find? (fun u => u.device_id == some did)).map (·.id)

/-- The statements the user resolution runs: a SELECT only for anonymous
callers. -/
def submitUserActs (authUser : Option Nat) : List Act :=
  match authUser with
  | some _ => []
  | none => [Act.rd]

/-- The full statement list of the submit transaction body: optional user
lookup by device id, the unique insert of the report header, then per
detection (potholes first, then road anomalies) the detection insert and the
aggregation merge. -/
def submitActs (now dbId : Nat) (authUser : Option Nat) (rid did : String)
    (userId : Option Nat) (potholes patchy : List AnomalyEntry) : List Act :=
  submitUserActs authUser ++
  [Act.uins (fun d => d.reports.any (fun r => r.report_id == rid))
    (fun d => { d with reports := d.reports ++ [{
        id := dbId, report_id := rid, user_id := userId, device_id := did,
        total_potholes := potholes.length,
        total_patchy_roads := patchy.length,
        health_score := healthScore potholes.length patchy.length,
        status := "pending" }] })] ++
  (potholes.map (potholeActs now dbId)).flatten ++
  (patchy.map (anomalyActs now dbId)).flatten

/-- Response of the submit endpoint. -/
inductive SubmitResp where
  | badRequest
  | created (reportId : String) (dbId : Nat) (totalPotholes totalPatchy : Nat)
      (health : Int)
  | conflict
  | failure
deriving DecidableEq, Repr

/-- `true` exactly on the 201 success response. -/
def SubmitResp.isCreated : SubmitResp → Bool
  | .created .. => true
  | _ => false

/-- Commit / catch part of `submitReport`: on success commit and answer 201
with the computed totals; on any raised error roll back (return the original
database), answering 409 for `ER_DUP_ENTRY` and 500 otherwise. -/
def submitFinish (db : DB) (rid : String) (dbId tp ta : Nat) (stF : TxSt) :
    DB × SubmitResp × List Ev :=
  match stF.err with
  | none =>
      (stF.db, .created rid dbId tp ta (healthScore tp ta),
        stF.ev ++ [.commit])
  | some .dup => (db, .conflict, stF.ev ++ [.rollback])
  | some .storage => (db, .failure, stF.ev ++ [.rollback])

/-- `submitReport` from the report controller.  The connection is acquired
and `beginTransaction` runs before the required-field validation; the body
statements then run inside the transaction and `submitFinish` commits or
rolls back. -/
def submitReport (oracle : Nat → Bool) (now : Nat) (authUser : Option Nat)
    (p : SubmitPayload) (db : DB) : DB × SubmitResp × List Ev :=
  if p.report_id.isNone || p.device_id.isNone || p.anomalies.isNone then
    (db, .badRequest, [.begin])
  else
    let rid := p.report_id.getD ""
    let did := p.device_id.getD ""
    let ans := p.anomalies.getD []
    let userId := submitUserId authUser db did
    let potholes := ans.filter (fun a => a.type == "pothole")
    let patchy := ans.filter (fun a => a.type == "road_anomaly")
    let dbId := nextId (db.reports.map (·.id))
    submitFinish db rid dbId potholes.length patchy.length
      (runActs oracle
        (submitActs now dbId authUser rid did userId potholes patchy)
        { db := db, k := 0, ev := [.begin], err := none })

/-- Response of the two assignment-creation endpoints. -/
inductive AssignResp where
  | badRequest
  | locationNotFound
  | contractorNotFound
  | updated (assignmentId : Nat)
  | created (assignmentId : Nat)
deriving DecidableEq, Repr

/-- `w` is an open assignment for `locId`
(`status NOT IN ('completed','verified')`). -/
def isOpenAssignmentFor (locId : Nat) (w : WaRow) : Bool :=
  w.aggregated_location_id == locId &&
    !(w.status == .completed) && !(w.status == .verified)

/-- Set the status of location `locId` to 'assigned'
(`UPDATE aggregated_locations SET status = 'assigned' WHERE id = ?`). -/
def setLocAssigned (locId : Nat) (db : DB) : DB :=
  { db with aggs := db.aggs.map fun c =>
      if c.id = locId then { c with status := .assigned } else c }

/-- `createWorkAssignment` from the report controller (public endpoint):
validates presence and existence, then either updates the existing open
assignment in place or inserts a new row; either way the location status
becomes 'assigned'. -/
def createWorkAssignment (locationId contractorId : Option Nat)
    (dueDate notes : Option String) (db : DB) : DB × AssignResp :=
  if locationId.isNone || contractorId.isNone then (db, .badRequest)
  else
    let locId := locationId.getD 0
    let conId := contractorId.getD 0
    if !(db.aggs.any (fun c => c.id == locId)) then (db, .locationNotFound)
    else if !(db.contractors.any (fun c => c.id == conId && c.is_active)) then
      (db, .contractorNotFound)
    else
      match db.assignments.find? (isOpenAssignmentFor locId) with
      | some ex =>
          let db1 : DB := { db with assignments := (db.assignments.map fun w =>
              if w.id = ex.id then
                { w with
                  contractor_id := conId, due_date := dueDate,
                  notes := notes, status := .assigned }
              else w) }
          (setLocAssigned locId db1, .updated ex.id)
      | none =>
          let newId := nextId (db.assignments.map (·.id))
          let db1 : DB := { db with assignments := db.assignments ++
              [{ id := newId, aggregated_location_id := locId,
                 contractor_id := conId, assigned_by := none,
                 due_date := dueDate, status := .assigned,
                 completed_at := none, admin_notes := none, notes := notes }] }
          (setLocAssigned locId db1, .created newId)

/-- `assignToContractor` from the admin controller: validates existence of
the location and an active contractor, then unconditionally inserts a new
assignment row (`assigned_by = req.user.id`) and sets the location status
to 'assigned'.  There is no check for an existing open assignment. -/
def assignToContractor (adminId : Nat) (locationId contractorId : Nat)
    (dueDate notes : Option String) (db : DB) : DB × AssignResp :=
  if !(db.aggs.any (fun c => c.id == locationId)) then (db, .locationNotFound)
  else if !(db.contractors.any
      (fun c => c.id == contractorId && c.is_active)) then
    (db, .contractorNotFound)
  else
    let newId := nextId (db.assignments.map (·.id))
    let db1 : DB := { db with assignments := db.assignments ++
        [{ id := newId, aggregated_location_id := locationId,
           contractor_id := contractorId, assigned_by := some adminId,
           due_date := dueDate, status := .assigned,
           completed_at := none, admin_notes := none, notes := notes }] }
    (setLocAssigned locationId db1, .created newId)

/-- Response of the admin batch-assign endpoint. -/
inductive BatchResp where
  | badRequest
  | contractorNotFound
  | createdBatch (assignmentIds : List Nat)
  | failure
deriving DecidableEq, Repr

/-- One iteration of `batchAssign`: insert an assignment for `locId`
(the foreign key on `aggregated_location_id` makes the insert fail when the
location does not exist, aborting the whole transaction) and set the
location status to 'assigned'. -/
def batchAssignStep (adminId conId : Nat) (dueDate notes : Option String)
    (acc : DB × List Nat) (locId : Nat) : Except Unit (DB × List Nat) :=
  let d := acc.1
  if d.aggs.any (fun c => c.id == locId) then
    let newId := nextId (d.assignments.map (·.id))
    let d1 : DB := { d with assignments := d.assignments ++
        [{ id := newId, aggregated_location_id := locId,
           contractor_id := conId, assigned_by := some adminId,
           due_date := dueDate, status := .assigned,
           completed_at := none, admin_notes := none, notes := notes }] }
    .ok (setLocAssigned locId d1, acc.2 ++ [newId])
  else .error ()

/-- `batchAssign` from the admin controller: one transaction over the list
of location ids; each iteration blindly inserts a new assignment row (no
open-assignment check) and marks the location 'assigned'; any failure rolls
back the whole batch. -/
def batchAssign (adminId : Nat) (locationIds : Option (List Nat))
    (contractorId : Option Nat) (dueDate notes : Option String) (db : DB) :
    DB × BatchResp :=
  if locationIds.isNone || (locationIds.getD []).isEmpty
      || contractorId.isNone then (db, .badRequest)
  else
    let conId := contractorId.getD 0
    if !(db.contractors.any (fun c => c.id == conId && c.is_active)) then
      (db, .contractorNotFound)
    else
      match (locationIds.getD []).foldlM
          (batchAssignStep adminId conId dueDate notes) (db, []) with
      | .ok acc => (acc.1, .createdBatch acc.2)
      | .error _ => (db, .failure)

/-- Response of the verification endpoints. -/
inductive VerifyResp where
  | notFound
  | ok (locationUpdated assignmentUpdated : Bool)
  | okMsg
deriving DecidableEq, Repr

/-- The assignment filter of `verifyLocation`:
`aggregated_location_id = ? AND status IN
('pending_verification','in_progress','assigned')`. -/
def verifyAssignMatch (locId : Nat) (w : WaRow) : Bool :=
  w.aggregated_location_id == locId &&
    (w.status == .pendingVerification || w.status == .inProgress
      || w.status == .assigned)

/-- `verifyLocation` from the report controller (dashboard endpoint):
update the location to 'verified' stamping `verified_at`; 404 when zero rows
matched; otherwise best-effort update of assignments in
{pending_verification, in_progress, assigned} to 'verified' with
`completed_at` stamped, reporting both affected-row counts as flags. -/
def verifyLocation (now : Nat) (locationId : Nat) (notes : Option String)
    (db : DB) : DB × VerifyResp :=
  let n := (db.aggs.filter (fun c => c.id == locationId)).length
  let db1 : DB := { db with aggs := db.aggs.map fun c =>
      if c.id = locationId then
        { c with
          status := .verified, verified_at := some now }
      else c }
  if n == 0 then (db1, .notFound)
  else
    let m := (db1.assignments.filter (verifyAssignMatch locationId)).length
    let db2 : DB := { db1 with assignments := (db1.assignments.map fun w =>
        if verifyAssignMatch locationId w then
          { w with
            status := .verified, completed_at := some now,
            admin_notes := some (notes.getD "Verified from dashboard") }
        else w) }
    (db2, .ok true (decide (0 < m)))

/-- `verifyWork` from the admin controller: unconditionally update the
location to 'verified' (no affected-rows check, so a missing location still
answers 200), then move assignments of that location whose status is
'in_progress' to 'completed' with `completed_at` stamped. -/
def verifyWork (now : Nat) (locationId : Nat) (notes : Option String)
    (db : DB) : DB × VerifyResp :=
  let db1 : DB := { db with aggs := db.aggs.map fun c =>
      if c.id = locationId then
        { c with
          status := .verified, verified_at := some now }
      else c }
  let db2 : DB := { db1 with assignments := (db1.assignments.map fun w =>
      if w.aggregated_location_id == locationId && w.status == .inProgress
      then
        { w with
          status := .completed, completed_at := some now,
          admin_notes := notes }
      else w) }
  (db2, .okMsg)

/-- `rejectVerification` from the admin controller: move assignments of the
location in 'pending_verification' back to 'in_progress' with the reason as
admin note, then set the location status to 'assigned' unconditionally.
The handler always answers 200. -/
def rejectVerification (locationId : Nat) (reason : Option String)
    (db : DB) : DB :=
  let db1 : DB := { db with assignments := db.assignments.map fun w =>
      if w.aggregated_location_id == locationId
          && w.status == .pendingVerification then
        { w with status := .inProgress, admin_notes := reason }
      else w }
  setLocAssigned locationId db1

/-- Response of the batch-verify endpoint. -/
inductive BatchVerifyResp where
  | badRequest
  | okCounts (locationsUpdated assignmentsUpdated : Nat)
deriving DecidableEq, Repr

/-- One iteration of `batchVerifyLocations`: the same two updates as
`verifyLocation`, accumulating both affected-row counts. -/
def batchVerifyStep (now : Nat) (notes : Option String)
    (acc : DB × Nat × Nat) (locId : Nat) : DB × Nat × Nat :=
  let d := acc.1
  let lu := (d.aggs.filter (fun c => c.id == locId)).length
  let d1 : DB := { d with aggs := d.aggs.map fun c =>
      if c.id = locId then
        { c with
          status := .verified, verified_at := some now }
      else c }
  let au := (d1.assignments.filter (verifyAssignMatch locId)).length
  let d2 : DB := { d1 with assignments := (d1.assignments.map fun w =>
      if verifyAssignMatch locId w then
        { w with
          status := .verified, completed_at := some now,
          admin_notes := some (notes.getD "Batch verified from dashboard") }
      else w) }
  (d2, acc.2.1 + lu, acc.2.2 + au)

/-- `batchVerifyLocations` from the report controller: `beginTransaction`
runs before the `locationIds` validation; then per id the two verify
updates; commit at the end.  The event trace records two writes per id. -/
def batchVerifyLocations (now : Nat) (locationIds : Option (List Nat))
    (notes : Option String) (db : DB) : DB × BatchVerifyResp × List Ev :=
  if locationIds.isNone || (locationIds.getD []).isEmpty then
    (db, .badRequest, [.begin])
  else
    let ids := locationIds.getD []
    let fin := ids.foldl (batchVerifyStep now notes) (db, 0, 0)
    (fin.1, .okCounts fin.2.1 fin.2.2,
      [Ev.begin] ++ (ids.map (fun _ => [Ev.write, Ev.write])).flatten
        ++ [Ev.commit])

/-- Column names of `work_assignments` in the database initialization
script. -/
def workAssignmentsColumns : List String :=
  ["id", "aggregated_location_id", "contractor_id", "assigned_by",
   "assigned_at", "due_date", "status", "completed_at", "admin_notes",
   "notes"]

/-- The SET column list of the contractor job-status UPDATE:
`SET status = ?, notes = CONCAT(COALESCE(notes,''), ...), completion_date
= ?`. -/
def updateJobStatusSetColumns : List String :=
  ["status", "notes", "completion_date"]

/-- The `validStatuses` array of `updateJobStatus` (note:
'pending_verification' is not accepted there). -/
def contractorValidStatuses : List WaStatus :=
  [.assigned, .inProgress, .completed, .verified]

/-- Response of the contractor job-status endpoint. -/
inductive JobResp where
  | badRequest
  | profileNotFound
  | jobNotFound
  | okMsg
  | serverError
deriving DecidableEq, Repr

/-- `updateJobStatus` from the contractor controller: status validation,
contractor-profile and job-ownership lookups, then the UPDATE whose SET
clause names the column `completion_date`.  `work_assignments` has no such
column (it defines `completed_at`), so MySQL raises an unknown-column error,
the catch block answers 500, and neither the assignment nor the location is
changed; the branch that would run had the column existed (including the
`status = 'fixed'` location update on completion) is embedded for
reference. -/
def updateJobStatus (userId : Nat) (jobId : Nat) (status : Option WaStatus)
    (notes : Option String) (db : DB) : DB × JobResp :=
  if !(match status with
       | some s => contractorValidStatuses.contains s
       | none => false) then (db, .badRequest)
  else
    let s := status.getD .assigned
    match db.contractors.find? (fun c => c.user_id == some userId) with
    | none => (db, .profileNotFound)
    | some con =>
      match db.assignments.find?
          (fun w => w.id == jobId && w.contractor_id == con.id) with
      | none => (db, .jobNotFound)
      | some job =>
        if updateJobStatusSetColumns.all (workAssignmentsColumns.contains ·)
        then
          let d1 : DB := { db with assignments := (db.assignments.map fun w =>
              if w.id = jobId then
                { w with
                  status := s,
                  notes := some ((w.notes.getD "") ++ "\n" ++ (notes.getD "")) }
              else w) }
          let d2 :=
            if s == .completed then
              { d1 with aggs := d1.aggs.map fun c =>
                  if c.id = job.aggregated_location_id then
                    { c with status := .fixed }
                  else c }
            else d1
          (d2, .okMsg)
        else (db, .serverError)

/-- The severity the SELECT of `updateAggregatedLocation` would report for a
grid key: the `highest_severity` of the first row matching the key. -/
def cellSeverity (aggs : List AggRow) (key : String) : Option Severity :=
  (aggs.find? (fun c => c.grid_id == key)).map (·.highest_severity)

/-- Merge a sequence of detections (severity and pothole/patchy tag), all at
the same coordinates, into the grid one at a time, the way the submit loop
invokes `updateAggregatedLocation` once per detection. -/
def mergeDetections (now : Nat) (lat lng : Coord) (aggs : List AggRow)
    (ds : List (Option Severity × Bool)) : List AggRow :=
  ds.foldl (fun t d => updateAggs now t lat lng d.1 d.2) aggs

/-- Modelled from the spec: the maximum of a list of severities under the
total order Low < Medium < High (the specification's reference value for
`highest_severity`, to be compared against what the code computes). -/
def specMaxSeverity (l : List Severity) : Severity :=
  l.foldr (fun a b => if b.rank ≤ a.rank then a else b) .Low

/-- The empty store. -/
def dbEmpty : DB := ⟨[], [], [], [], [], [], []⟩

/-- A submission with one High pothole and one Low road anomaly whose start
point rounds to the same 4-decimal bucket. -/
def payloadA : SubmitPayload :=
  { report_id := some "r1", device_id := some "d1",
    anomalies := some [
      { type := "pothole", location_id := none,
        latitude := some ⟨130827, 10000⟩, longitude := some ⟨802707, 10000⟩,
        start_latitude := none, start_longitude := none,
        end_latitude := none, end_longitude := none,
        severity := some .High },
      { type := "road_anomaly", location_id := none,
        latitude := none, longitude := none,
        start_latitude := some ⟨1308271, 100000⟩,
        start_longitude := some ⟨802707, 10000⟩,
        end_latitude := none, end_longitude := none,
        severity := some .Low }] }

/-- A store already holding a report with external id "r1". -/
def dbDup : DB :=
  ⟨[], [⟨1, "r1", none, "d1", 1, 1, 80, "pending"⟩], [], [], [], [], []⟩

/-- A store with one hotspot, one active contractor and one open (status
'assigned') work assignment on that hotspot. -/
def dbAssign : DB :=
  ⟨[], [], [], [],
   [⟨1, "13.0827_80.2707", 130827, 802707, 3, 0, .High, 3, some 1, some 2,
     .assigned, none⟩],
   [⟨1, none, true⟩, ⟨2, none, true⟩],
   [⟨1, 1, 1, none, none, .assigned, none, none, none⟩]⟩

/-- A store with one hotspot awaiting verification and its assignment in
'pending_verification'. -/
def dbVerify : DB :=
  ⟨[], [], [], [],
   [⟨1, "13.0827_80.2707", 130827, 802707, 2, 1, .High, 3, some 1, some 2,
     .pendingVerification, none⟩],
   [⟨1, none, true⟩],
   [⟨1, 1, 1, none, none, .pendingVerification, none, none, none⟩]⟩

/-- A store with one pending hotspot and no assignments at all. -/
def dbReject : DB :=
  ⟨[], [], [], [],
   [⟨1, "13.0827_80.2707", 130827, 802707, 1, 0, .Low, 1, some 1, some 1,
     .pending, none⟩],
   [], []⟩

/-- A store with a contractor profile for user 7 owning assignment 3. -/
def dbJob : DB :=
  ⟨[⟨7, some "dev7"⟩], [], [], [],
   [⟨1, "13.0827_80.2707", 130827, 802707, 1, 0, .High, 1, some 1, some 1,
     .assigned, none⟩],
   [⟨1, some 7, true⟩],
   [⟨3, 1, 1, none, none, .inProgress, none, none, none⟩]⟩

theorem mergeSeverity_low_right (s : Severity) : mergeSeverity s .Low = s := by
  cases s <;> rfl

theorem mergeSeverity_comm (a b : Severity) :
    mergeSeverity a b = mergeSeverity b a := by
  cases a <;> cases b <;> rfl

theorem mergeSeverity_left_le (a b : Severity) :
    a.rank ≤ (mergeSeverity a b).rank := by
  cases a <;> cases b <;> decide

theorem specMaxSeverity_cons (a : Severity) (l : List Severity) :
    specMaxSeverity (a :: l) = mergeSeverity (specMaxSeverity l) a := by
  show (if (specMaxSeverity l).rank ≤ a.rank then a else specMaxSeverity l)
      = mergeSeverity (specMaxSeverity l) a
  cases a <;> cases specMaxSeverity l <;> rfl

theorem foldl_mergeSeverity_eq (l : List Severity) (s : Severity) :
    l.foldl mergeSeverity s = mergeSeverity s (specMaxSeverity l) := by
  induction l generalizing s with
  | nil => exact (mergeSeverity_low_right s).symm
  | cons a l ih =>
      rw [List.foldl_cons, ih, specMaxSeverity_cons]
      cases s <;> cases a <;> cases specMaxSeverity l <;> rfl

theorem specMaxSeverity_perm {l l' : List Severity} (h : l.Perm l') :
    specMaxSeverity l = specMaxSeverity l' := by
  induction h with
  | nil => rfl
  | cons a _ ih => rw [specMaxSeverity_cons, specMaxSeverity_cons, ih]
  | swap a b l =>
      rw [specMaxSeverity_cons, specMaxSeverity_cons, specMaxSeverity_cons,
        specMaxSeverity_cons]
      cases a <;> cases b <;> cases specMaxSeverity l <;> rfl
  | trans _ _ ih1 ih2 => rw [ih1, ih2]

theorem aggMergeRow_grid_id (now : Nat) (key : String) (h : Severity)
    (ty : Bool) (c : AggRow) : (aggMergeRow now key h ty c).grid_id = c.grid_id := by
  unfold aggMergeRow
  split <;> rfl

theorem cellSeverity_updateAggs_present (now : Nat) (aggs : List AggRow)
    (lat lng : Coord) (sv : Option Severity) (ty : Bool) (cur : AggRow)
    (h : aggs.find? (fun c => c.grid_id == gridKey lat lng) = some cur) :
    cellSeverity (updateAggs now aggs lat lng sv ty) (gridKey lat lng)
      = some (mergeSeverity cur.highest_severity (sv.getD .Medium)) := by
  have hcur : cur.grid_id = gridKey lat lng := by
    have := List.find?_some h
    simpa using this
  unfold updateAggs
  rw [h]
  unfold cellSeverity
  rw [List.find?_map]
  have hp : ((fun c => c.grid_id == gridKey lat lng) ∘
      aggMergeRow now (gridKey lat lng)
        (mergeSeverity cur.highest_severity (sv.getD .Medium)) ty)
      = (fun c => c.grid_id == gridKey lat lng) := by
    funext c
    simp [Function.comp, aggMergeRow_grid_id]
  rw [hp, h]
  simp [aggMergeRow, hcur]

theorem cellSeverity_updateAggs_absent (now : Nat) (aggs : List AggRow)
    (lat lng : Coord) (sv : Option Severity) (ty : Bool)
    (h : aggs.find? (fun c => c.grid_id == gridKey lat lng) = none) :
    cellSeverity (updateAggs now aggs lat lng sv ty) (gridKey lat lng)
      = some (sv.getD .Medium) := by
  unfold updateAggs
  rw [h]
  unfold cellSeverity
  rw [List.find?_append, h]
  simp [aggInsertRow]

theorem cellSeverity_mergeDetections (now : Nat) (lat lng : Coord)
    (ds : List (Option Severity × Bool)) :
    ∀ (t : List AggRow) (s : Severity),
      cellSeverity t (gridKey lat lng) = some s →
      cellSeverity (mergeDetections now lat lng t ds) (gridKey lat lng)
        = some (ds.foldl (fun a d => mergeSeverity a (d.1.getD .Medium)) s) := by
  induction ds with
  | nil => intro t s h; simpa [mergeDetections] using h
  | cons d ds ih =>
      intro t s h
      obtain ⟨cur, hfind, hsev⟩ : ∃ cur,
          t.find? (fun c => c.grid_id == gridKey lat lng) = some cur ∧
            cur.highest_severity = s := by
        unfold cellSeverity at h
        cases hf : t.find? (fun c => c.grid_id == gridKey lat lng) with
        | none => rw [hf] at h; simp at h
        | some cur => rw [hf] at h; simp at h; exact ⟨cur, rfl, h⟩
      have hstep := cellSeverity_updateAggs_present now t lat lng d.1 d.2 cur hfind
      rw [hsev] at hstep
      have := ih (updateAggs now t lat lng d.1 d.2)
        (mergeSeverity s (d.1.getD .Medium)) hstep
      simpa [mergeDetections] using this

/-- C2: for every sequence of detections whose coordinates map to the same
grid bucket, merging them one at a time leaves the cell's
`highest_severity` equal to the maximum of all merged severities under
Low < Medium < High; the result is independent of the merge order, and a
single merge never decreases the cell's severity. -/
theorem aggregation_highest_severity_max (now : Nat) (lat lng : Coord)
    (aggs : List AggRow)
    (hk : aggs.find? (fun c => c.grid_id == gridKey lat lng) = none)
    (ds ds' : List (Option Severity × Bool)) (hperm : ds.Perm ds')
    (d0 : Option Severity × Bool) (rest : List (Option Severity × Bool))
    (hds : ds = d0 :: rest) :
    cellSeverity (mergeDetections now lat lng aggs ds) (gridKey lat lng)
      = some (specMaxSeverity (ds.map (fun d => d.1.getD .Medium))) ∧
    cellSeverity (mergeDetections now lat lng aggs ds) (gridKey lat lng)
      = cellSeverity (mergeDetections now lat lng aggs ds') (gridKey lat lng) ∧
    ∀ (t : List AggRow) (sv : Option Severity) (ty : Bool) (cur : Severity),
      cellSeverity t (gridKey lat lng) = some cur →
      cur.rank ≤ ((cellSeverity (updateAggs now t lat lng sv ty)
        (gridKey lat lng)).getD .Low).rank := by
  have key : ∀ (e0 : Option Severity × Bool) (r : List (Option Severity × Bool)),
      cellSeverity (mergeDetections now lat lng aggs (e0 :: r)) (gridKey lat lng)
        = some (specMaxSeverity ((e0 :: r).map (fun d => d.1.getD .Medium))) := by
    intro e0 r
    have h0 := cellSeverity_updateAggs_absent now aggs lat lng e0.1 e0.2 hk
    have h1 := cellSeverity_mergeDetections now lat lng r
      (updateAggs now aggs lat lng e0.1 e0.2) (e0.1.getD .Medium) h0
    have h2 : (mergeDetections now lat lng aggs (e0 :: r))
        = mergeDetections now lat lng (updateAggs now aggs lat lng e0.1 e0.2) r := by
      simp [mergeDetections]
    rw [h2, h1]
    congr 1
    have h3 : r.foldl (fun a d => mergeSeverity a (d.1.getD .Medium))
          (e0.1.getD .Medium)
        = (r.map (fun d => d.1.getD .Medium)).foldl mergeSeverity
          (e0.1.getD .Medium) := by
      rw [List.foldl_map]
    rw [h3, foldl_mergeSeverity_eq, List.map_cons, specMaxSeverity_cons,
      mergeSeverity_comm]
  subst hds
  obtain ⟨e0, r', hds'⟩ : ∃ e0 r', ds' = e0 :: r' := by
    cases hd' : ds' with
    | nil => rw [hd'] at hperm; have := hperm.eq_nil; simp at this
    | cons a b => exact ⟨a, b, rfl⟩
  refine ⟨key d0 rest, ?_, ?_⟩
  · rw [key d0 rest, hds', key e0 r', ← hds']
    have := specMaxSeverity_perm (hperm.map (fun d => d.1.getD .Medium))
    rw [this]
  · intro t sv ty cur hc
    obtain ⟨row, hfind, hsev⟩ : ∃ row,
        t.find? (fun c => c.grid_id == gridKey lat lng) = some row ∧
          row.highest_severity = cur := by
      unfold cellSeverity at hc
      cases hf : t.find? (fun c => c.grid_id == gridKey lat lng) with
      | none => rw [hf] at hc; simp at hc
      | some row => rw [hf] at hc; simp at hc; exact ⟨row, rfl, hc⟩
    rw [cellSeverity_updateAggs_present now t lat lng sv ty row hfind, hsev]
    exact mergeSeverity_left_le cur (sv.getD .Medium)

theorem aggregation_highest_severity_max_witness :
    ([] : List AggRow).find?
        (fun c => c.grid_id == gridKey ⟨130827, 10000⟩ ⟨802707, 10000⟩) = none ∧
    cellSeverity (mergeDetections 5 ⟨130827, 10000⟩ ⟨802707, 10000⟩ []
        [(some .High, true), (some .Low, false)])
        (gridKey ⟨130827, 10000⟩ ⟨802707, 10000⟩) = some .High :=
  ⟨by decide,
   by
    have h := aggregation_highest_severity_max 5 ⟨130827, 10000⟩
      ⟨802707, 10000⟩ [] (by decide)
      [(some .High, true), (some .Low, false)]
      [(some .Low, false), (some .High, true)]
      (List.Perm.swap _ _ _) (some .High, true) [(some .Low, false)] rfl
    rw [h.1]
    decide⟩

/-- C3: on every successful submission the reported health score equals
`max(0, 100 − 15·potholes − 5·anomalies)` exactly, and lies in [0, 100]. -/
theorem submit_healthScore_spec (oracle : Nat → Bool) (now : Nat)
    (auth : Option Nat) (p : SubmitPayload) (db : DB) (rid : String)
    (i tp ta : Nat) (h : Int)
    (hr : (submitReport oracle now auth p db).2.1 = .created rid i tp ta h) :
    h = max 0 (100 - 15 * (tp : Int) - 5 * (ta : Int)) ∧ 0 ≤ h ∧ h ≤ 100 := by
  have hh : h = healthScore tp ta := by
    unfold submitReport submitFinish at hr
    split at hr
    · simp at hr
    · dsimp only [] at hr
      split at hr
      · simp only [] at hr
        obtain ⟨h1, h2, h3, h4, h5⟩ := SubmitResp.created.inj hr
        subst h3; subst h4; subst h5
        rfl
      · simp at hr
      · simp at hr
  subst hh
  unfold healthScore
  refine ⟨by omega, by omega, by omega⟩

theorem submit_healthScore_spec_witness :
    ((submitReport (fun _ => true) 5 none payloadA dbEmpty).2.1
        = SubmitResp.created "r1" 1 1 1 80) ∧
    ((80 : Int) = max 0 (100 - 15 * ((1 : Nat) : Int) - 5 * ((1 : Nat) : Int))
      ∧ (0 : Int) ≤ 80 ∧ (80 : Int) ≤ 100) :=
  ⟨by decide,
   submit_healthScore_spec (fun _ => true) 5 none payloadA dbEmpty
     "r1" 1 1 1 80 (by decide)⟩

/-- C4: the grid key is a pure function of the coordinates' values: any two
inputs whose coordinates round to the same 4-decimal values produce the
identical key string, whatever precision they were written at; and two
detections with equal keys merge into the same aggregated-location row
(merging both into a table without the key adds exactly one row). -/
theorem gridKey_spec :
    (∀ lat lng lat' lng' : Coord, round4 lat = round4 lat' →
      round4 lng = round4 lng' → gridKey lat lng = gridKey lat' lng') ∧
    (∀ (now now' : Nat) (aggs : List AggRow) (lat lng lat' lng' : Coord)
      (sv sv' : Option Severity) (ty ty' : Bool),
      gridKey lat' lng' = gridKey lat lng →
      aggs.find? (fun c => c.grid_id == gridKey lat lng) = none →
      (updateAggs now' (updateAggs now aggs lat lng sv ty)
          lat' lng' sv' ty').length = aggs.length + 1) := by
  constructor
  · intro lat lng lat' lng' h1 h2
    unfold gridKey
    rw [h1, h2]
  · intro now now' aggs lat lng lat' lng' sv sv' ty ty' hkey hk
    have h1 : updateAggs now aggs lat lng sv ty
        = aggs ++ [aggInsertRow now aggs (gridKey lat lng) lat lng
            (sv.getD .Medium) ty] := by
      unfold updateAggs
      rw [hk]
    have h2 : (aggs ++ [aggInsertRow now aggs (gridKey lat lng) lat lng
          (sv.getD .Medium) ty]).find?
            (fun c => c.grid_id == gridKey lat' lng')
        = some (aggInsertRow now aggs (gridKey lat lng) lat lng
            (sv.getD .Medium) ty) := by
      rw [List.find?_append, hkey, hk]
      simp [aggInsertRow]
    rw [h1]
    unfold updateAggs
    rw [h2]
    simp

theorem gridKey_spec_witness :
    (round4 ⟨1308270, 100000⟩ = round4 ⟨130827, 10000⟩ ∧
      gridKey ⟨1308270, 100000⟩ ⟨802707, 10000⟩
        = gridKey ⟨130827, 10000⟩ ⟨802707, 10000⟩) ∧
    (updateAggs 1 (updateAggs 0 [] ⟨130827, 10000⟩ ⟨802707, 10000⟩
        (some .High) true) ⟨1308270, 100000⟩ ⟨802707, 10000⟩
        (some .Low) false).length = ([] : List AggRow).length + 1 :=
  ⟨⟨by decide,
    gridKey_spec.1 ⟨1308270, 100000⟩ ⟨802707, 10000⟩ ⟨130827, 10000⟩
      ⟨802707, 10000⟩ (by decide) (by decide)⟩,
   gridKey_spec.2 1 0 [] ⟨130827, 10000⟩ ⟨802707, 10000⟩ ⟨1308270, 100000⟩
     ⟨802707, 10000⟩ (some .High) (some .Low) true false (by decide)
     (by decide)⟩

theorem runAct_err_isSome (oracle : Nat → Bool) (st : TxSt) (a : Act)
    (h : st.err.isSome = true) : runAct oracle st a = st := by
  cases a <;> simp [runAct, txRead, txWrite, txUniqueInsert, h]

theorem runActs_err_isSome (oracle : Nat → Bool) (acts : List Act) :
    ∀ st : TxSt, st.err.isSome = true → runActs oracle acts st = st := by
  induction acts with
  | nil => intro st _; rfl
  | cons a acts ih =>
      intro st h
      have hcons : runActs oracle (a :: acts) st
          = runActs oracle acts (runAct oracle st a) := rfl
      rw [hcons, runAct_err_isSome oracle st a h, ih st h]

theorem runAct_oracle_irrel (oracle : Nat → Bool) (st : TxSt) (a : Act)
    (h : (runAct oracle st a).err = none) :
    runAct oracle st a = runAct (fun _ => true) st a := by
  cases a with
  | rd => rfl
  | wr f =>
      simp only [runAct, txWrite] at h ⊢
      by_cases h1 : st.err.isSome
      · simp [h1]
      · simp only [h1, if_false, Bool.false_eq_true] at h ⊢
        cases h2 : oracle st.k with
        | true => simp [h2]
        | false => rw [h2] at h; simp at h
  | uins dup f =>
      simp only [runAct, txUniqueInsert, txWrite] at h ⊢
      by_cases h1 : st.err.isSome
      · simp [h1]
      · by_cases h3 : dup st.db
        · simp [h1, h3]
        · simp only [h1, h3, if_false, Bool.false_eq_true] at h ⊢
          cases h2 : oracle st.k with
          | true => simp [h2]
          | false => rw [h2] at h; simp [h1] at h

theorem runActs_oracle_irrel (oracle : Nat → Bool) (acts : List Act) :
    ∀ st : TxSt, (runActs oracle acts st).err = none →
      runActs oracle acts st = runActs (fun _ => true) acts st := by
  induction acts with
  | nil => intro st _; rfl
  | cons a acts ih =>
      intro st h
      have hcons : runActs oracle (a :: acts) st
          = runActs oracle acts (runAct oracle st a) := rfl
      have hstep : (runAct oracle st a).err = none := by
        by_contra hc
        have hsome : (runAct oracle st a).err.isSome = true := by
          cases he : (runAct oracle st a).err with
          | none => exact absurd he hc
          | some e => rfl
        rw [hcons, runActs_err_isSome oracle acts _ hsome] at h
        exact hc h
      have h' : (runActs oracle acts (runAct oracle st a)).err = none := by
        rw [← hcons]; exact h
      calc runActs oracle (a :: acts) st
      _ = runActs oracle acts (runAct oracle st a) := hcons
      _ = runActs (fun _ => true) acts (runAct oracle st a) := ih _ h'
      _ = runActs (fun _ => true) acts (runAct (fun _ => true) st a) := by
            rw [runAct_oracle_irrel oracle st a hstep]
      _ = runActs (fun _ => true) (a :: acts) st := rfl

theorem submitFinish_not_created (db : DB) (rid : String) (dbId tp ta : Nat)
    (stF : TxSt)
    (h : (submitFinish db rid dbId tp ta stF).2.1.isCreated = false) :
    (submitFinish db rid dbId tp ta stF).1 = db := by
  cases he : stF.err with
  | none =>
      unfold submitFinish at h
      rw [he] at h
      simp [SubmitResp.isCreated] at h
  | some e =>
      unfold submitFinish
      rw [he]
      cases e <;> rfl

theorem submitFinish_created_err (db : DB) (rid : String) (dbId tp ta : Nat)
    (stF : TxSt)
    (h : (submitFinish db rid dbId tp ta stF).2.1.isCreated = true) :
    stF.err = none := by
  cases he : stF.err with
  | none => rfl
  | some e =>
      unfold submitFinish at h
      rw [he] at h
      cases e <;> simp [SubmitResp.isCreated] at h

/-- C1: the report-ingestion transaction is atomic: when the response is not
the 201 success (the transaction did not commit), the stored state is
exactly what it was before the call — no report row, no detection row and no
aggregation merge survives; and when it is the 201 success, every statement
succeeded and the outcome is identical to a run in which no write fails at
all. -/
theorem submitReport_atomic (oracle : Nat → Bool) (now : Nat)
    (auth : Option Nat) (p : SubmitPayload) (db : DB) :
    ((submitReport oracle now auth p db).2.1.isCreated = false →
      (submitReport oracle now auth p db).1 = db) ∧
    ((submitReport oracle now auth p db).2.1.isCreated = true →
      submitReport oracle now auth p db
        = submitReport (fun _ => true) now auth p db) := by
  unfold submitReport
  split
  · exact ⟨fun _ => rfl, fun hc => by simp [SubmitResp.isCreated] at hc⟩
  · dsimp only []
    constructor
    · intro hnc
      exact submitFinish_not_created _ _ _ _ _ _ hnc
    · intro hc
      have herr := submitFinish_created_err _ _ _ _ _ _ hc
      rw [runActs_oracle_irrel oracle _ _ herr]

theorem submitReport_atomic_witness :
    ((submitReport (fun k => decide (k < 4)) 5 none payloadA dbEmpty).2.1.isCreated
        = false ∧
      (submitReport (fun k => decide (k < 4)) 5 none payloadA dbEmpty).1
        = dbEmpty) ∧
    ((submitReport (fun _ => true) 5 none payloadA dbEmpty).2.1.isCreated
        = true ∧
      submitReport (fun _ => true) 5 none payloadA dbEmpty
        = submitReport (fun _ => true) 5 none payloadA dbEmpty) :=
  ⟨⟨by decide,
    (submitReport_atomic (fun k => decide (k < 4)) 5 none payloadA dbEmpty).1
      (by decide)⟩,
   ⟨by decide,
    (submitReport_atomic (fun _ => true) 5 none payloadA dbEmpty).2
      (by decide)⟩⟩

theorem runActs_append (oracle : Nat → Bool) (l1 l2 : List Act) (st : TxSt) :
    runActs oracle (l1 ++ l2) st = runActs oracle l2 (runActs oracle l1 st) :=
  List.foldl_append _ _ _ _

theorem runActs_single_uins (oracle : Nat → Bool) (dup : DB → Bool)
    (f : DB → DB) (db : DB) (k : Nat) (ev : List Ev) (hd : dup db = true) :
    runActs oracle [Act.uins dup f] ⟨db, k, ev, none⟩
      = ⟨db, k, ev, some .dup⟩ := by
  simp [runActs, runAct, txUniqueInsert, hd]

theorem submitActs_dup_err (oracle : Nat → Bool) (now dbId : Nat)
    (auth : Option Nat) (rid did : String) (userId : Option Nat)
    (potholes patchy : List AnomalyEntry) (db : DB) (k : Nat) (ev : List Ev)
    (hdup : db.reports.any (fun r => r.report_id == rid) = true) :
    (runActs oracle (submitActs now dbId auth rid did userId potholes patchy)
      ⟨db, k, ev, none⟩).err = some .dup := by
  obtain ⟨ev', hev⟩ : ∃ ev',
      runActs oracle (submitUserActs auth) ⟨db, k, ev, none⟩
        = ⟨db, k, ev', none⟩ := by
    cases auth with
    | some u => exact ⟨ev, rfl⟩
    | none =>
        refine ⟨ev ++ [.read], ?_⟩
        simp [submitUserActs, runActs, runAct, txRead]
  unfold submitActs
  rw [runActs_append, runActs_append, runActs_append, hev,
    runActs_single_uins oracle _ _ db k ev' hdup,
    runActs_err_isSome oracle _ ⟨db, k, ev', some .dup⟩ rfl,
    runActs_err_isSome oracle _ ⟨db, k, ev', some .dup⟩ rfl]

/-- C5: resubmitting an already-stored external report id makes the insert
of the report header fail with the duplicate-key error; the handler answers
with the distinct 409 conflict response ("Report already submitted"), not
the generic 500 failure, and the stored state is left exactly as it was
before the second call. -/
theorem submitReport_duplicate (oracle : Nat → Bool) (now : Nat)
    (auth : Option Nat) (p : SubmitPayload) (db : DB) (rid : String)
    (hrid : p.report_id = some rid) (hdev : p.device_id.isSome = true)
    (hans : p.anomalies.isSome = true)
    (hdup : db.reports.any (fun r => r.report_id == rid) = true) :
    (submitReport oracle now auth p db).1 = db ∧
    (submitReport oracle now auth p db).2.1 = .conflict ∧
    (submitReport oracle now auth p db).2.1 ≠ .failure := by
  obtain ⟨d, hd⟩ := Option.isSome_iff_exists.mp hdev
  obtain ⟨ans, ha⟩ := Option.isSome_iff_exists.mp hans
  have hcond : (p.report_id.isNone || p.device_id.isNone
      || p.anomalies.isNone) = false := by
    simp [hrid, hd, ha]
  unfold submitReport
  rw [hcond]
  dsimp only []
  simp only [hrid, Option.getD_some]
  have herr := submitActs_dup_err oracle now
    (nextId (db.reports.map (·.id))) auth rid (p.device_id.getD "")
    (submitUserId auth db (p.device_id.getD ""))
    ((p.anomalies.getD []).filter (fun a => a.type == "pothole"))
    ((p.anomalies.getD []).filter (fun a => a.type == "road_anomaly"))
    db 0 [Ev.begin] hdup
  unfold submitFinish
  rw [herr]
  exact ⟨rfl, rfl, by simp⟩

theorem submitReport_duplicate_witness :
    (submitReport (fun _ => true) 5 none payloadA dbDup).1 = dbDup ∧
    (submitReport (fun _ => true) 5 none payloadA dbDup).2.1
      = SubmitResp.conflict ∧
    (submitReport (fun _ => true) 5 none payloadA dbDup).2.1
      ≠ SubmitResp.failure :=
  submitReport_duplicate (fun _ => true) 5 none payloadA dbDup "r1"
    (by decide) (by decide) (by decide) (by decide)

theorem map_id_of {α : Type} (l : List α) (f : α → α)
    (h : ∀ x ∈ l, f x = x) : l.map f = l := by
  induction l with
  | nil => rfl
  | cons a l ih =>
      rw [List.map_cons, h a (List.mem_cons_self a l),
        ih (fun x hx => h x (List.mem_cons_of_mem a hx))]

/-- C7 counterexample: a submission missing its report id is answered with
the validation error, yet the trace shows the transaction HAS been begun
before validation ran — and likewise for batch verify with a missing
location-id list — contradicting "no transaction is begun". -/
theorem validation_begins_transaction :
    (submitReport (fun _ => true) 0 none ⟨none, some "d1", some []⟩
        dbEmpty).2.1 = SubmitResp.badRequest ∧
    Ev.begin ∈ (submitReport (fun _ => true) 0 none ⟨none, some "d1", some []⟩
        dbEmpty).2.2 ∧
    (batchVerifyLocations 0 none none dbEmpty).2.1
      = BatchVerifyResp.badRequest ∧
    Ev.begin ∈ (batchVerifyLocations 0 none none dbEmpty).2.2 := by
  decide

/-- C7 (amended): a request failing validation (missing report id, device
id or detection collection in submit; missing location-id list in batch
verify) is answered 400 before any read or write of table data — the trace
holds no read, write or commit event and the state is unchanged — but only
after the connection was acquired and a transaction begun (the trace is
exactly the begin event). -/
theorem validation_fails_fast (oracle : Nat → Bool) (now : Nat)
    (auth : Option Nat) (p : SubmitPayload) (db : DB)
    (hbad : (p.report_id.isNone || p.device_id.isNone
        || p.anomalies.isNone) = true) :
    submitReport oracle now auth p db = (db, .badRequest, [Ev.begin]) ∧
    (∀ (now' : Nat) (ids : Option (List Nat)) (notes : Option String)
      (db' : DB), (ids.isNone || (ids.getD []).isEmpty) = true →
      batchVerifyLocations now' ids notes db'
        = (db', .badRequest, [Ev.begin])) := by
  constructor
  · unfold submitReport
    rw [hbad]
    rfl
  · intro now' ids notes db' hbad'
    unfold batchVerifyLocations
    rw [hbad']
    rfl

theorem validation_fails_fast_witness :
    submitReport (fun _ => true) 0 none ⟨some "r9", none, some []⟩ dbEmpty
      = (dbEmpty, .badRequest, [Ev.begin]) ∧
    batchVerifyLocations 3 (some []) none dbDup
      = (dbDup, .badRequest, [Ev.begin]) :=
  ⟨(validation_fails_fast (fun _ => true) 0 none ⟨some "r9", none, some []⟩
      dbEmpty (by decide)).1,
   (validation_fails_fast (fun _ => true) 0 none ⟨some "r9", none, some []⟩
      dbEmpty (by decide)).2 3 (some []) none dbDup (by decide)⟩

/-- C9 counterexample: rejecting verification on a location that has NO
assignment in 'pending_verification' is not a silent no-op: the location's
status is still forced to 'assigned' (here it was 'pending', and the store
holds no assignment at all). -/
theorem rejectVerification_not_noop :
    dbReject.assignments = [] ∧
    dbReject.aggs.map (fun c => c.status) = [LocStatus.pending] ∧
    (rejectVerification 1 (some "not fixed") dbReject).aggs.map
      (fun c => c.status) = [LocStatus.assigned] := by
  decide

/-- C9 (amended): reject-verification moves every assignment of the location
that is in 'pending_verification' back to 'in_progress' carrying the reason
note, leaves every other assignment and every other table unchanged — but
sets the location's status to 'assigned' unconditionally; when no
pending-verification assignment exists the assignment table is untouched
while the location still moves to 'assigned'. -/
theorem rejectVerification_spec (locId : Nat) (reason : Option String)
    (db : DB) :
    (rejectVerification locId reason db).assignments
      = db.assignments.map (fun w =>
          if w.aggregated_location_id == locId
              && w.status == WaStatus.pendingVerification then
            { w with status := .inProgress, admin_notes := reason }
          else w) ∧
    (rejectVerification locId reason db).aggs
      = db.aggs.map (fun c =>
          if c.id = locId then { c with status := .assigned } else c) ∧
    (rejectVerification locId reason db).users = db.users ∧
    (rejectVerification locId reason db).reports = db.reports ∧
    (rejectVerification locId reason db).potholes = db.potholes ∧
    (rejectVerification locId reason db).anomalies = db.anomalies ∧
    (rejectVerification locId reason db).contractors = db.contractors ∧
    ((∀ w ∈ db.assignments, (w.aggregated_location_id == locId
        && w.status == WaStatus.pendingVerification) = false) →
      (rejectVerification locId reason db).assignments = db.assignments) := by
  refine ⟨rfl, rfl, rfl, rfl, rfl, rfl, rfl, ?_⟩
  intro hnone
  show db.assignments.map _ = db.assignments
  apply map_id_of
  intro w hw
  rw [hnone w hw]
  simp

theorem rejectVerification_spec_witness :
    (rejectVerification 1 (some "redo") dbReject).assignments
      = dbReject.assignments :=
  (rejectVerification_spec 1 (some "redo") dbReject).2.2.2.2.2.2.2
    (by decide)

/-- C8 counterexample: the admin verify operation does not behave as the
claim states: an assignment in 'pending_verification' on the verified
location is left untouched (not moved to 'verified'), an 'in_progress'
assignment is moved to 'completed' rather than 'verified', and verifying a
non-existent location still answers plain success rather than not-found. -/
theorem verifyWork_diverges :
    (verifyWork 7 1 none dbVerify).1.assignments.map (fun w => w.status)
      = [WaStatus.pendingVerification] ∧
    (verifyWork 7 2 none dbVerify).2 = VerifyResp.okMsg ∧
    (verifyWork 7 2 none dbVerify).2 ≠ VerifyResp.notFound ∧
    (verifyWork 7 1 none dbJob).1.assignments.map (fun w => w.status)
      = [WaStatus.completed] := by
  decide

/-- C8 (amended): the dashboard verify operation behaves exactly as
claimed — not-found (with no change, zero rows matched) for a missing
location; otherwise the location becomes 'verified' with `verified_at`
stamped, every assignment of the location in {assigned, in_progress,
pending_verification} becomes 'verified' with `completed_at` stamped, and
the response reports `assignmentUpdated = false` when no such assignment
exists.  The admin verify operation instead moves only 'in_progress'
assignments, to 'completed', and answers success even for a missing
location. -/
theorem verify_operations_spec (now : Nat) (locId : Nat)
    (notes : Option String) (db : DB) :
    (db.aggs.any (fun c => c.id == locId) = false →
      verifyLocation now locId notes db = (db, .notFound)) ∧
    (db.aggs.any (fun c => c.id == locId) = true →
      verifyLocation now locId notes db
        = ({ db with
              aggs := db.aggs.map (fun c =>
                if c.id = locId then
                  { c with status := .verified, verified_at := some now }
                else c),
              assignments := db.assignments.map (fun w =>
                if verifyAssignMatch locId w then
                  { w with
                    status := .verified, completed_at := some now,
                    admin_notes := some (notes.getD "Verified from dashboard") }
                else w) },
           .ok true (decide (0 <
             (db.assignments.filter (verifyAssignMatch locId)).length)))) ∧
    verifyWork now locId notes db
      = ({ db with
            aggs := db.aggs.map (fun c =>
              if c.id = locId then
                { c with status := .verified, verified_at := some now }
              else c),
            assignments := db.assignments.map (fun w =>
              if w.aggregated_location_id == locId
                  && w.status == WaStatus.inProgress then
                { w with
                  status := .completed, completed_at := some now,
                  admin_notes := notes }
              else w) },
         .okMsg) := by
  refine ⟨?_, ?_, rfl⟩
  · intro h
    have hall := List.any_eq_false.mp h
    have hfilter : db.aggs.filter (fun c => c.id == locId) = [] := by
      rw [List.filter_eq_nil_iff]
      intro c hc
      exact hall c hc
    have hmap : db.aggs.map (fun c =>
        if c.id = locId then
          { c with status := LocStatus.verified, verified_at := some now }
        else c) = db.aggs := by
      apply map_id_of
      intro c hc
      have hne : ¬(c.id = locId) := by
        have := hall c hc
        simpa using this
      rw [if_neg hne]
    unfold verifyLocation
    rw [hfilter]
    dsimp only [List.length_nil]
    rw [if_pos (show (((0 : Nat) == 0) = true) from rfl), hmap]
  · intro h
    obtain ⟨c, hc, hpc⟩ := List.any_eq_true.mp h
    have hmem : c ∈ db.aggs.filter (fun c => c.id == locId) :=
      List.mem_filter.mpr ⟨hc, hpc⟩
    have hlen : (db.aggs.filter (fun c => c.id == locId)).length ≠ 0 := by
      intro h0
      rw [List.length_eq_zero] at h0
      rw [h0] at hmem
      simp at hmem
    unfold verifyLocation
    rw [if_neg (by simpa using hlen)]

theorem verify_operations_spec_witness :
    verifyLocation 7 2 none dbVerify = (dbVerify, VerifyResp.notFound) ∧
    (verifyLocation 7 1 none dbVerify).2 = VerifyResp.ok true true ∧
    (verifyWork 7 2 none dbVerify).2 = VerifyResp.okMsg := by
  refine ⟨(verify_operations_spec 7 2 none dbVerify).1 (by decide), ?_, ?_⟩
  · rw [(verify_operations_spec 7 1 none dbVerify).2.1 (by decide)]
    decide
  · rw [(verify_operations_spec 7 2 none dbVerify).2.2]

/-- C6 counterexample: the admin assign operation inserts a second
assignment row for a location that already has an open ('assigned') one, so
two open assignments coexist for the same aggregated location. -/
theorem assignToContractor_duplicates :
    dbAssign.assignments.length = 1 ∧
    (dbAssign.assignments.filter (isOpenAssignmentFor 1)).length = 1 ∧
    (assignToContractor 9 1 2 none none dbAssign).2
      = AssignResp.created 2 ∧
    (assignToContractor 9 1 2 none none dbAssign).1.assignments.length = 2 ∧
    ((assignToContractor 9 1 2 none none dbAssign).1.assignments.filter
      (isOpenAssignmentFor 1)).length = 2 := by
  decide

/-- C6 (amended): only the public create-assignment endpoint enforces the
at-most-one-open-assignment rule: with an open assignment present it
updates that row in place (same id, new contractor/due-date/notes, status
reset to 'assigned') and inserts nothing; the admin assign operation and
the admin batch-assign operation insert a fresh assignment row
unconditionally (no open-assignment check), growing the table even when an
open assignment already exists.  All three set the location status to
'assigned'. -/
theorem assignment_creation_spec (locId conId : Nat)
    (dueDate notes : Option String) (db : DB) (ex : WaRow)
    (hloc : db.aggs.any (fun c => c.id == locId) = true)
    (hcon : db.contractors.any
      (fun c => c.id == conId && c.is_active) = true)
    (hopen : db.assignments.find? (isOpenAssignmentFor locId) = some ex) :
    (createWorkAssignment (some locId) (some conId) dueDate notes db).2
      = .updated ex.id ∧
    (createWorkAssignment (some locId) (some conId) dueDate notes
        db).1.assignments.length = db.assignments.length ∧
    (createWorkAssignment (some locId) (some conId) dueDate notes
        db).1.assignments
      = db.assignments.map (fun w =>
          if w.id = ex.id then
            { w with
              contractor_id := conId, due_date := dueDate,
              notes := notes, status := .assigned }
          else w) ∧
    (createWorkAssignment (some locId) (some conId) dueDate notes db).1.aggs
      = db.aggs.map (fun c =>
          if c.id = locId then { c with status := .assigned } else c) ∧
    (∀ (adminId : Nat) (dD nts : Option String),
      (assignToContractor adminId locId conId dD nts db).1.assignments
        = db.assignments ++
          [{ id := nextId (db.assignments.map (·.id)),
             aggregated_location_id := locId, contractor_id := conId,
             assigned_by := some adminId, due_date := dD,
             status := .assigned, completed_at := none,
             admin_notes := none, notes := nts }] ∧
      (assignToContractor adminId locId conId dD nts
          db).1.assignments.length = db.assignments.length + 1) ∧
    (∀ (adminId : Nat) (dD nts : Option String),
      (batchAssign adminId (some [locId]) (some conId) dD nts
          db).1.assignments.length = db.assignments.length + 1) := by
  have hcreate : createWorkAssignment (some locId) (some conId) dueDate notes db
      = ({ db with
            assignments := db.assignments.map (fun w =>
              if w.id = ex.id then
                { w with
                  contractor_id := conId, due_date := dueDate,
                  notes := notes, status := .assigned }
              else w),
            aggs := db.aggs.map (fun c =>
              if c.id = locId then { c with status := .assigned } else c) },
         .updated ex.id) := by
    unfold createWorkAssignment
    rw [if_neg (by simp)]
    dsimp only [Option.getD_some]
    rw [if_neg (by rw [hloc]; simp), if_neg (by rw [hcon]; simp), hopen]
    rfl
  refine ⟨by rw [hcreate], by rw [hcreate]; simp, by rw [hcreate],
    by rw [hcreate], ?_, ?_⟩
  · intro adminId dD nts
    have hadmin : assignToContractor adminId locId conId dD nts db
        = ({ db with
              assignments := db.assignments ++
                [{ id := nextId (db.assignments.map (·.id)),
                   aggregated_location_id := locId, contractor_id := conId,
                   assigned_by := some adminId, due_date := dD,
                   status := .assigned, completed_at := none,
                   admin_notes := none, notes := nts }],
              aggs := db.aggs.map (fun c =>
                if c.id = locId then { c with status := .assigned }
                else c) },
           .created (nextId (db.assignments.map (·.id)))) := by
      unfold assignToContractor
      rw [hloc, hcon]
      rfl
    rw [hadmin]
    simp
  · intro adminId dD nts
    unfold batchAssign
    rw [if_neg (by simp)]
    dsimp only [Option.getD_some]
    rw [if_neg (by rw [hcon]; simp)]
    have hstep : batchAssignStep adminId conId dD nts (db, []) locId
        = .ok (setLocAssigned locId
            { db with assignments := db.assignments ++
              [{ id := nextId (db.assignments.map (·.id)),
                 aggregated_location_id := locId, contractor_id := conId,
                 assigned_by := some adminId, due_date := dD,
                 status := .assigned, completed_at := none,
                 admin_notes := none, notes := nts }] },
            [nextId (db.assignments.map (·.id))]) := by
      unfold batchAssignStep
      dsimp only []
      rw [if_pos hloc]
      simp
    show ((match List.foldlM (batchAssignStep adminId conId dD nts)
        (db, []) [locId] with
      | .ok acc => (acc.1, BatchResp.createdBatch acc.2)
      | .error _ => (db, BatchResp.failure)).1.assignments.length)
      = db.assignments.length + 1
    rw [List.foldlM_cons]
    rw [hstep]
    simp [setLocAssigned]

theorem assignment_creation_spec_witness :
    (createWorkAssignment (some 1) (some 2) none (some "fix") dbAssign).2
      = AssignResp.updated 1 ∧
    (createWorkAssignment (some 1) (some 2) none (some "fix")
        dbAssign).1.assignments.length = dbAssign.assignments.length ∧
    (assignToContractor 9 1 2 none none dbAssign).1.assignments.length
      = dbAssign.assignments.length + 1 ∧
    (batchAssign 9 (some [1]) (some 2) none none
        dbAssign).1.assignments.length = dbAssign.assignments.length + 1 := by
  have h := assignment_creation_spec 1 2 none (some "fix") dbAssign
    ⟨1, 1, 1, none, none, .assigned, none, none, none⟩
    (by decide) (by decide) (by decide)
  exact ⟨h.1, h.2.1, (h.2.2.2.2.1 9 none none).2, h.2.2.2.2.2 9 none none⟩

/-- C10: the contractor job-status UPDATE names the column
`completion_date`, which the `work_assignments` schema does not define (it
defines `completed_at`); hence for a valid status and an existing owned job
the operation answers the 500 storage error, and in every case it leaves
the whole store unchanged — in particular the location status 'fixed' is
unreachable through this operation. -/
theorem updateJobStatus_schema_mismatch (userId jobId : Nat)
    (status : Option WaStatus) (notes : Option String) (db : DB) :
    (updateJobStatus userId jobId status notes db).1 = db ∧
    ("completion_date" ∈ updateJobStatusSetColumns ∧
      "completion_date" ∉ workAssignmentsColumns) ∧
    (∀ (s : WaStatus) (con : ContractorRow) (job : WaRow),
      status = some s → contractorValidStatuses.contains s = true →
      db.contractors.find? (fun c => c.user_id == some userId) = some con →
      db.assignments.find? (fun w => w.id == jobId
        && w.contractor_id == con.id) = some job →
      (updateJobStatus userId jobId status notes db).2 = .serverError) := by
  refine ⟨?_, by decide, ?_⟩
  · unfold updateJobStatus
    split
    · rfl
    · split
      · rfl
      · split
        · rfl
        · rw [if_neg (by decide)]
  · intro s con job hs hvalid hcon hjob
    unfold updateJobStatus
    rw [hs]
    dsimp only []
    rw [if_neg (by rw [hvalid]; simp), hcon]
    dsimp only []
    rw [hjob]
    dsimp only []
    rw [if_neg (by decide)]

theorem updateJobStatus_schema_mismatch_witness :
    (updateJobStatus 7 3 (some .completed) (some "done") dbJob).1 = dbJob ∧
    (updateJobStatus 7 3 (some .completed) (some "done") dbJob).2
      = JobResp.serverError := by
  have h := updateJobStatus_schema_mismatch 7 3 (some .completed)
    (some "done") dbJob
  exact ⟨h.1,
    h.2.2 .completed ⟨1, some 7, true⟩
      ⟨3, 1, 1, none, none, .inProgress, none, none, none⟩
      rfl (by decide) (by decide) (by decide)⟩
